import Mathlib

/-!
# Verification of the external-tool detection registry

Shallow embedding of `src/pyqt_app_info/tools.py`: the `ToolSpec`,
`ToolResult` and `ToolRegistry` definitions and the detection pipeline
(`_detect_one`, `detect`, `detect_all`, `register`).

The effectful stdlib primitives (`shutil.which`, `Path.is_file`,
`subprocess.run`) are modelled by an explicit `World` record of oracles;
process failure modes (`subprocess.TimeoutExpired`, `OSError`) become
constructors of the invocation outcome, mirroring the only exceptions the
source catches. Python's insertion-ordered `dict` is modelled by an
association list with CPython semantics: overwriting an existing key keeps
its original position, a fresh key is appended at the end.

String details: Python's `str.strip()` (no argument) is modelled by
`String.trim` (the strings in play use ASCII whitespace only), and
`str.split("\n")` by `String.splitOn "\n"`; both agree with Python on the
empty string (`"".split("\n") == [""]` and `"".splitOn "\n" = [""]`), so
indexing `[0]` after the split never fails and is modelled by `List.headD`.
-/

namespace PyQtAppInfo

/-- Outcome of `subprocess.run([path, flag], capture_output=True, text=True,
timeout=t)` as the source observes it: a completed process with its return
code and captured stdout, or one of the two exception classes the source
catches (`subprocess.TimeoutExpired`, `OSError` for launch failure). -/
inductive RunOutcome where
  | completed (returncode : Int) (stdout : String)
  | timeoutExpired
  | osError
deriving DecidableEq, Repr

/-- Environment oracles for the three stdlib primitives used by
`_detect_one`: `shutil.which`, `pathlib.Path.is_file` and
`subprocess.run` (argv list and timeout in seconds). -/
structure World where
  which : String → Option String
  is_file : String → Bool
  run : List String → Nat → RunOutcome

/-- `ToolSpec` dataclass: specification for an external CLI tool.
The source's `version_timeout: float = 5.0` is modelled as a natural
number of seconds; its value is only forwarded to the `run` oracle. -/
structure ToolSpec where
  name : String
  command : String
  version_flag : String := "--version"
  fallback_paths : List String := []
  version_timeout : Nat := 5
deriving DecidableEq, Repr

/-- `ToolResult` dataclass: detection result for a single tool.
`status` is one of `"available"`, `"not_found"`, `"error"`. -/
structure ToolResult where
  name : String
  path : Option String := none
  version : Option String := none
  status : String := "not_found"
deriving DecidableEq, Repr

/-- The fallback loop of `_detect_one`:
`for candidate in spec.fallback_paths: if Path(candidate).is_file():
path = candidate; break`. -/
def firstFile (is_file : String → Bool) : List String → Option String
  | [] => none
  | c :: rest => if is_file c then some c else firstFile is_file rest

/-- Path resolution of `_detect_one`: `shutil.which(spec.command)`, falling
back to the first existing regular file among `spec.fallback_paths`. -/
def resolvePath (w : World) (spec : ToolSpec) : Option String :=
  match w.which spec.command with
  | some p => some p
  | none => firstFile w.is_file spec.fallback_paths

/-- Python `str.strip()` on the character list of a string: drop leading
and trailing whitespace (the strings in play use only ASCII whitespace,
where `Char.isWhitespace` and Python agree). -/
def pyStrip (cs : List Char) : List Char :=
  ((cs.dropWhile Char.isWhitespace).reverse.dropWhile Char.isWhitespace).reverse

/-- Python `str.split("\n")` on the character list of a string: the list of
segments between newline characters, keeping empty segments, with
`"".split("\n") == [""]`. -/
def pySplitNl : List Char → List (List Char)
  | [] => [[]]
  | c :: rest =>
    match pySplitNl rest with
    | [] => [[]]
    | seg :: segs => if c = '\n' then [] :: seg :: segs else (c :: seg) :: segs

/-- Version extraction of the source on a zero exit status:
`proc.stdout.strip().split("\n")[0]` — strip the whole text first, then
split on newlines and take the first segment (`split` never yields an empty
list, so the `[0]` index is total and modelled by `headD`). -/
def code_version (stdout : String) : String :=
  ⟨(pySplitNl (pyStrip stdout.data)).headD []⟩

/-- Version extraction as the spec words it ("take the captured
standard-output text, split on line boundaries, take the first line, trim
surrounding whitespace"): split first, then trim the first line. Stated
only to compare against `code_version`. -/
def spec_version (stdout : String) : String :=
  ⟨pyStrip ((pySplitNl stdout.data).headD [])⟩

/-- The `try`/`except` block of `_detect_one`: classify the outcome of the
version invocation for a resolved path `p`. Zero return code yields
`available` with the first-line version; non-zero return code, timeout and
launch failure all yield `error` with the path and no version. -/
def classifyRun (name p : String) (outcome : RunOutcome) : ToolResult :=
  match outcome with
  | .completed rc out =>
    if rc = 0 then
      { name := name, path := some p, version := some (code_version out),
        status := "available" }
    else
      { name := name, path := some p, status := "error" }
  | .timeoutExpired => { name := name, path := some p, status := "error" }
  | .osError => { name := name, path := some p, status := "error" }

/-- `ToolRegistry._detect_one`: run detection for a single `ToolSpec` —
resolve the path, return `not_found` when resolution fails, otherwise
invoke `[path, version_flag]` under the timeout and classify. -/
def detect_one (w : World) (spec : ToolSpec) : ToolResult :=
  match resolvePath w spec with
  | none => { name := spec.name, status := "not_found" }
  | some p => classifyRun spec.name p (w.run [p, spec.version_flag] spec.version_timeout)

/-- The registry's `self._specs` insertion-ordered dict, as an association
list from `ToolSpec.name` to `ToolSpec`. -/
abbrev Specs := List (String × ToolSpec)

/-- `ToolRegistry.register`: `self._specs[spec.name] = spec`. CPython dict
assignment: an existing key keeps its position and gets the new value, a
fresh key is appended. -/
def register (specs : Specs) (spec : ToolSpec) : Specs :=
  if specs.any (fun p => p.1 == spec.name) then
    specs.map (fun p => if p.1 == spec.name then (p.1, spec) else p)
  else specs ++ [(spec.name, spec)]

/-- Dict lookup `self._specs[name]`, `none` standing for the `KeyError`
case. -/
def dictGet (specs : Specs) (name : String) : Option ToolSpec :=
  (specs.find? (fun p => p.1 == name)).map (fun p => p.2)

/-- `ToolRegistry.detect`: look up `name` in `self._specs` (a `KeyError`
becomes `Except.error ()`) and run `_detect_one`. The method only reads the
registry, so the state component is returned alongside the result. -/
def detect (w : World) (specs : Specs) (name : String) :
    Except Unit ToolResult × Specs :=
  match dictGet specs name with
  | none => (Except.error (), specs)
  | some spec => (Except.ok (detect_one w spec), specs)

/-- `ToolRegistry.detect_all`: one `_detect_one` result per registered
spec, in registration order. The method only reads the registry. -/
def detect_all (w : World) (specs : Specs) : List ToolResult × Specs :=
  ((specs : List (String × ToolSpec)).map (fun p => detect_one w p.2), specs)

/-- The status/field consistency predicate over a `ToolResult`:
`not_found` has neither path nor version, `available` has both,
`error` has a path but no version. -/
def statusConsistent (r : ToolResult) : Bool :=
  (r.status != "not_found" || (r.path == none && r.version == none)) &&
  (r.status != "available" || (r.path.isSome && r.version.isSome)) &&
  (r.status != "error" || (r.path.isSome && r.version == none))

end PyQtAppInfo

namespace PyQtAppInfo

/-! ## Sanity checks on concrete inputs (test_tools.py oracles) -/

example : code_version "12.50\n" = "12.50" := by decide
example : code_version "1.2.3\nSome extra info\n" = "1.2.3" := by decide
example : code_version "X\nY\n" = "X" := by decide
example : code_version "\nX\n" = "X" := by decide
example : spec_version "\nX\n" = "" := by decide
example : code_version "\n" = "" := by decide

/-! ## Helper lemmas -/

lemma firstFile_eq_none (is_file : String → Bool) (l : List String)
    (h : ∀ c ∈ l, is_file c = false) : firstFile is_file l = none := by
  induction l with
  | nil => rfl
  | cons c rest ih =>
    simp only [firstFile, h c (List.mem_cons_self c rest),
      Bool.false_eq_true, if_false]
    exact ih fun x hx => h x (List.mem_cons_of_mem c hx)

lemma firstFile_append_first (is_file : String → Bool) (l₁ : List String)
    (c : String) (l₂ : List String) (h₁ : ∀ x ∈ l₁, is_file x = false)
    (hc : is_file c = true) :
    firstFile is_file (l₁ ++ c :: l₂) = some c := by
  induction l₁ with
  | nil => simp [firstFile, hc]
  | cons a rest ih =>
    simp only [List.cons_append, firstFile, h₁ a (List.mem_cons_self a rest),
      Bool.false_eq_true, if_false]
    exact ih fun x hx => h₁ x (List.mem_cons_of_mem a hx)

lemma detect_one_none (w : World) (spec : ToolSpec)
    (h : resolvePath w spec = none) :
    detect_one w spec = { name := spec.name, status := "not_found" } := by
  unfold detect_one
  rw [h]

lemma detect_one_some (w : World) (spec : ToolSpec) (p : String)
    (h : resolvePath w spec = some p) :
    detect_one w spec
      = classifyRun spec.name p
          (w.run [p, spec.version_flag] spec.version_timeout) := by
  unfold detect_one
  rw [h]

lemma statusConsistent_classifyRun (name p : String) (outcome : RunOutcome) :
    statusConsistent (classifyRun name p outcome) = true := by
  cases outcome with
  | completed rc out =>
    by_cases hrc : rc = 0 <;> simp [classifyRun, statusConsistent, hrc]
  | timeoutExpired => rfl
  | osError => rfl

lemma statusConsistent_detect_one (w : World) (spec : ToolSpec) :
    statusConsistent (detect_one w spec) = true := by
  cases hres : resolvePath w spec with
  | none => rw [detect_one_none w spec hres]; rfl
  | some p =>
    rw [detect_one_some w spec p hres]
    exact statusConsistent_classifyRun spec.name p _

lemma classifyRun_path (name p : String) (outcome : RunOutcome) :
    (classifyRun name p outcome).path = some p := by
  cases outcome with
  | completed rc out => by_cases hrc : rc = 0 <;> simp [classifyRun, hrc]
  | timeoutExpired => rfl
  | osError => rfl

lemma detect_one_resolved_path (w : World) (spec : ToolSpec) (p : String)
    (h : resolvePath w spec = some p) :
    (detect_one w spec).path = some p := by
  rw [detect_one_some w spec p h]
  exact classifyRun_path spec.name p _

lemma find?_replace (l : List (String × ToolSpec)) (n : String) (s : ToolSpec)
    (h : l.any (fun p => p.1 == n) = true) :
    ((l.map (fun p => if p.1 == n then (p.1, s) else p)).find?
        (fun p => p.1 == n)).map (fun p => p.2) = some s := by
  induction l with
  | nil => simp at h
  | cons a rest ih =>
    by_cases ha : a.1 == n
    · have hrepl : (if a.1 == n then (a.1, s) else a) = (a.1, s) := if_pos ha
      simp only [List.map_cons, hrepl]
      rw [List.find?_cons_of_pos _ (by simpa using ha)]
      rfl
    · simp only [List.any_cons, ha, Bool.false_or] at h
      simp only [List.map_cons, ha, if_false]
      rw [List.find?_cons_of_neg _ (by simpa using ha)]
      exact ih h

lemma dictGet_register_self (specs : Specs) (spec : ToolSpec) :
    dictGet (register specs spec) spec.name = some spec := by
  unfold register dictGet
  by_cases h : specs.any (fun p => p.1 == spec.name)
  · rw [if_pos h]
    exact find?_replace specs spec.name spec h
  · rw [if_neg h]
    rw [List.find?_append]
    have hnone : specs.find? (fun p => p.1 == spec.name) = none := by
      rw [List.find?_eq_none]
      intro x hx hpx
      exact h (List.any_eq_true.mpr ⟨x, hx, hpx⟩)
    rw [hnone]
    simp

lemma register_map_fst_of_mem (specs : Specs) (spec : ToolSpec)
    (h : specs.any (fun p => p.1 == spec.name) = true) :
    (register specs spec).map Prod.fst = specs.map Prod.fst := by
  unfold register
  rw [if_pos h]
  clear h
  induction specs with
  | nil => rfl
  | cons a rest ih =>
    simp only [List.map_cons, ih]
    by_cases ha : a.1 == spec.name <;> simp [ha]

/-! ## Concrete fixtures for witnesses and counterexamples -/

/-- A world whose search path resolves `tool` and whose version invocation
succeeds with stdout beginning with a blank line. -/
def blankFirstWorld : World :=
  { which := fun c => if c == "tool" then some "/usr/bin/tool" else none
  , is_file := fun _ => false
  , run := fun _ _ => RunOutcome.completed 0 "\nX\n" }

def blankFirstSpec : ToolSpec := { name := "Tool", command := "tool" }

/-- A world where `exiftool` resolves and reports version `12.50`. -/
def okWorld : World :=
  { which := fun c => if c == "exiftool" then some "/usr/bin/exiftool" else none
  , is_file := fun _ => false
  , run := fun _ _ => RunOutcome.completed 0 "12.50\n" }

def exifSpec : ToolSpec :=
  { name := "ExifTool", command := "exiftool", version_flag := "-ver" }

/-- A world where nothing resolves and nothing is a file. -/
def noneWorld : World :=
  { which := fun _ => none
  , is_file := fun _ => false
  , run := fun _ _ => RunOutcome.osError }

def missingSpec : ToolSpec := { name := "Missing", command := "no_such_tool" }

/-- A world where `bad` resolves but the version invocation exits 1. -/
def badWorld : World :=
  { which := fun c => if c == "bad" then some "/usr/bin/bad" else none
  , is_file := fun _ => false
  , run := fun _ _ => RunOutcome.completed 1 "" }

def badSpec : ToolSpec := { name := "Bad", command := "bad" }

/-- A world where the search path fails but both fallback entries exist as
files. -/
def fbWorld : World :=
  { which := fun _ => none
  , is_file := fun p => p == "/opt/a" || p == "/opt/b"
  , run := fun _ _ => RunOutcome.completed 0 "1.0\n" }

def fbSpec : ToolSpec :=
  { name := "FB", command := "fb", fallback_paths := ["/opt/a", "/opt/b"] }

def s1 : ToolSpec := { name := "A", command := "a" }
def s2 : ToolSpec := { name := "B", command := "b" }
def s1x : ToolSpec := { name := "A", command := "a2" }

end PyQtAppInfo

namespace PyQtAppInfo

/-! ## Claim theorems -/

/-- C1: the claim says the version is the first line of stdout with
surrounding whitespace trimmed, so a blank first line gives the empty
string. The code instead strips the whole stdout first and then takes the
first line: on stdout `"\nX\n"` (first line blank) the code produces
`"X"`, not `""` as the claim requires. -/
theorem C1_counterexample :
    (detect_one blankFirstWorld blankFirstSpec).status = "available" ∧
    (detect_one blankFirstWorld blankFirstSpec).version = some "X" ∧
    spec_version "\nX\n" = "" ∧ ("X" : String) ≠ "" := by decide

/-- C1 (amended): for every registered specification whose resolved
executable's version invocation completes with exit status zero, status is
available and the version equals the first newline-separated segment of the
stdout text after stripping surrounding whitespace from the whole text
(so stdout `"X\nY\n"` gives `"X"`, and stdout `"\nX\n"` gives `"X"`;
whitespace-only stdout gives the empty string). -/
theorem C1_version_strip_then_first_line (w : World) (spec : ToolSpec)
    (p : String) (rc : Int) (out : String)
    (hres : resolvePath w spec = some p)
    (hrun : w.run [p, spec.version_flag] spec.version_timeout
      = RunOutcome.completed rc out)
    (hrc : rc = 0) :
    detect_one w spec
      = { name := spec.name, path := some p,
          version := some ⟨(pySplitNl (pyStrip out.data)).headD []⟩,
          status := "available" } := by
  rw [detect_one_some w spec p hres, hrun]
  simp [classifyRun, hrc, code_version]

theorem C1_witness :
    detect_one okWorld exifSpec
      = { name := "ExifTool", path := some "/usr/bin/exiftool",
          version := some "12.50", status := "available" } :=
  C1_version_strip_then_first_line okWorld exifSpec "/usr/bin/exiftool"
    0 "12.50\n" (by decide) rfl rfl

/-- C2: `detect` raises `KeyError` (modelled `Except.error ()`) exactly
when the name was never registered, and for a registered name it always
returns a `ToolResult` — every process/filesystem failure having been
converted to data by `_detect_one`. -/
theorem C2_detect_keyerror_iff_unregistered (w : World) (specs : Specs)
    (name : String) :
    ((detect w specs name).1 = Except.error () ↔ dictGet specs name = none) ∧
    (∀ spec, dictGet specs name = some spec →
      (detect w specs name).1 = Except.ok (detect_one w spec)) := by
  unfold detect
  cases h : dictGet specs name with
  | none => simp
  | some s => simp

theorem C2_witness :
    (detect okWorld [] "nope").1 = Except.error () ∧
    (detect okWorld [("ExifTool", exifSpec)] "ExifTool").1
      = Except.ok (detect_one okWorld exifSpec) :=
  ⟨(C2_detect_keyerror_iff_unregistered okWorld [] "nope").1.mpr rfl,
   (C2_detect_keyerror_iff_unregistered okWorld
      [("ExifTool", exifSpec)] "ExifTool").2 exifSpec (by decide)⟩

/-- C3: every `ToolResult` produced by `detect` or `detect_all` satisfies
the status consistency invariant: `not_found` has neither path nor
version, `available` has both, `error` has a path but no version. -/
theorem C3_status_consistency (w : World) (specs : Specs) (name : String)
    (r : ToolResult) :
    ((detect w specs name).1 = Except.ok r → statusConsistent r = true) ∧
    (r ∈ (detect_all w specs).1 → statusConsistent r = true) := by
  constructor
  · intro h
    unfold detect at h
    cases hd : dictGet specs name with
    | none => rw [hd] at h; simp at h
    | some s =>
      rw [hd] at h
      simp only [Except.ok.injEq] at h
      rw [← h]
      exact statusConsistent_detect_one w s
  · intro h
    unfold detect_all at h
    simp only [List.mem_map] at h
    obtain ⟨p, _, hp⟩ := h
    rw [← hp]
    exact statusConsistent_detect_one w p.2

theorem C3_witness :
    statusConsistent (detect_one okWorld exifSpec) = true :=
  (C3_status_consistency okWorld [("ExifTool", exifSpec)] "ExifTool"
      (detect_one okWorld exifSpec)).2 (by decide)

/-- C4: when the search-path lookup fails and no fallback path is an
existing regular file, the result is `not_found` with no path and no
version, and the version invocation is never attempted: the result does
not depend on the `run` oracle at all. -/
theorem C4_not_found_no_invocation (w : World) (spec : ToolSpec)
    (hwhich : w.which spec.command = none)
    (hfb : ∀ c ∈ spec.fallback_paths, w.is_file c = false) :
    detect_one w spec
      = { name := spec.name, path := none, version := none,
          status := "not_found" } ∧
    ∀ run', detect_one { w with run := run' } spec = detect_one w spec := by
  have hres : resolvePath w spec = none := by
    unfold resolvePath
    rw [hwhich]
    exact firstFile_eq_none w.is_file spec.fallback_paths hfb
  refine ⟨detect_one_none w spec hres, fun run' => ?_⟩
  have hres' : resolvePath { w with run := run' } spec = none := hres
  rw [detect_one_none _ _ hres', detect_one_none w spec hres]

theorem C4_witness :
    detect_one noneWorld missingSpec
      = { name := "Missing", path := none, version := none,
          status := "not_found" } :=
  (C4_not_found_no_invocation noneWorld missingSpec rfl (by decide)).1

/-- C5: once a path is resolved, a non-zero exit status, a timeout or a
launch failure each yield `status = error` with the resolved path and no
version. -/
theorem C5_error_cases (w : World) (spec : ToolSpec) (p : String)
    (hres : resolvePath w spec = some p)
    (hfail :
      (∃ rc out, w.run [p, spec.version_flag] spec.version_timeout
          = RunOutcome.completed rc out ∧ rc ≠ 0) ∨
      w.run [p, spec.version_flag] spec.version_timeout
        = RunOutcome.timeoutExpired ∨
      w.run [p, spec.version_flag] spec.version_timeout
        = RunOutcome.osError) :
    detect_one w spec
      = { name := spec.name, path := some p, version := none,
          status := "error" } := by
  rw [detect_one_some w spec p hres]
  rcases hfail with ⟨rc, out, hrun, hrc⟩ | hrun | hrun
  · rw [hrun]; simp [classifyRun, hrc]
  · rw [hrun]; rfl
  · rw [hrun]; rfl

theorem C5_witness :
    detect_one badWorld badSpec
      = { name := "Bad", path := some "/usr/bin/bad", version := none,
          status := "error" } :=
  C5_error_cases badWorld badSpec "/usr/bin/bad" (by decide)
    (Or.inl ⟨1, "", rfl, by decide⟩)

/-- C6: when the search-path lookup fails, fallback paths are probed in
list order and the first existing regular file becomes the resolved path
(`fallback_paths = l₁ ++ c :: l₂` with every entry of `l₁` failing the
file test and `c` passing it resolves to `c`; in particular `[A, B]` with
both files resolves to `A`). -/
theorem C6_fallback_first_file_wins (w : World) (spec : ToolSpec)
    (l₁ : List String) (c : String) (l₂ : List String)
    (hwhich : w.which spec.command = none)
    (hsplit : spec.fallback_paths = l₁ ++ c :: l₂)
    (h₁ : ∀ x ∈ l₁, w.is_file x = false)
    (hc : w.is_file c = true) :
    resolvePath w spec = some c ∧ (detect_one w spec).path = some c := by
  have hres : resolvePath w spec = some c := by
    unfold resolvePath
    rw [hwhich, hsplit]
    exact firstFile_append_first w.is_file l₁ c l₂ h₁ hc
  exact ⟨hres, detect_one_resolved_path w spec c hres⟩

theorem C6_witness :
    resolvePath fbWorld fbSpec = some "/opt/a" ∧
    (detect_one fbWorld fbSpec).path = some "/opt/a" :=
  C6_fallback_first_file_wins fbWorld fbSpec [] "/opt/a" ["/opt/b"]
    rfl rfl (by decide) (by decide)

/-- C7: `detect_all` returns exactly one result per registered
specification, in registration order: the output has the registry's
length and its i-th entry is the detection of the i-th registered
specification. It is a total function, so it never fails. -/
theorem C7_detect_all_one_result_per_spec (w : World) (specs : Specs) :
    (detect_all w specs).1.length = specs.length ∧
    ∀ i : Nat, (detect_all w specs).1[i]?
      = (specs[i]?).map (fun p => detect_one w p.2) := by
  unfold detect_all
  exact ⟨by simp, fun i => by simp⟩

/-- C8: `register` is total (it succeeds for every spec, including one
with an empty name) and last write wins: after registering `spec`, the
entry under `spec.name` is `spec`, and a subsequent `detect` of that name
detects `spec`. -/
theorem C8_register_last_write_wins (w : World) (specs : Specs)
    (spec : ToolSpec) :
    dictGet (register specs spec) spec.name = some spec ∧
    (detect w (register specs spec) spec.name).1
      = Except.ok (detect_one w spec) := by
  have h := dictGet_register_self specs spec
  refine ⟨h, ?_⟩
  unfold detect
  rw [h]

/-- C9: `detect` and `detect_all` only read the registry: the
name-to-specification mapping they return alongside the result — and with
it every registered `ToolSpec` — is exactly the input mapping; only
`register` produces a different mapping. -/
theorem C9_detection_preserves_registry (w : World) (specs : Specs)
    (name : String) :
    (detect w specs name).2 = specs ∧ (detect_all w specs).2 = specs := by
  refine ⟨?_, rfl⟩
  unfold detect
  cases dictGet specs name <;> rfl

/-- C10: re-registering under an already-present name keeps that name's
original position: the key sequence of the registry is unchanged, so the
replaced entry is not moved to the end of `detect_all`'s output order. -/
theorem C10_reregister_keeps_position (specs : Specs) (spec : ToolSpec)
    (h : specs.any (fun p => p.1 == spec.name) = true) :
    (register specs spec).map Prod.fst = specs.map Prod.fst :=
  register_map_fst_of_mem specs spec h

theorem C10_witness :
    ((register (register (register [] s1) s2) s1x).map Prod.fst
        = (register (register [] s1) s2).map Prod.fst) ∧
    (detect_all noneWorld (register (register (register [] s1) s2) s1x)).1
      = [detect_one noneWorld s1x, detect_one noneWorld s2] :=
  ⟨C10_reregister_keeps_position (register (register [] s1) s2) s1x
      (by decide),
   by decide⟩

end PyQtAppInfo
